import Mathlib

/-!
Verification of the Ashvi Telegram chatbot (`src/ashvi_bot.py`) against its
natural-language specification.

The sqlite database is modelled as two lists of rows kept in insertion order
(`AUTOINCREMENT` message ids are produced by a monotone counter `nextId`, so
insertion order coincides with increasing id for databases built by the
operations).  Each Python function of the persistence layer, the conversation
assembler and the handlers is embedded as a pure Lean function on this state;
the remote generative-model call is an oracle parameter of type
`Except Unit String` (the outcome of the single `chat.send_message` call:
`ok raw` for a successful response with raw text, `error ()` for any raised
exception).
-/

namespace Ashvi

/-- A row of the `users` table: `(user_id INTEGER PRIMARY KEY, name TEXT,
banned INTEGER DEFAULT 0)`. -/
structure UserRow where
  user_id : Int
  name : String
  banned : Int
deriving Repr, DecidableEq

/-- A row of the `messages` table: `(id INTEGER PRIMARY KEY AUTOINCREMENT,
user_id INTEGER, role TEXT, content TEXT)`. -/
structure MsgRow where
  id : Nat
  user_id : Int
  role : String
  content : String
deriving Repr, DecidableEq

/-- The database state: the two tables in insertion order, plus the
autoincrement counter for message ids. -/
structure DB where
  users : List UserRow
  messages : List MsgRow
  nextId : Nat
deriving Repr, DecidableEq

/-- The freshly initialised database (`init_db` creates empty tables). -/
def dbInit : DB := ⟨[], [], 0⟩

/-- `SELECT ... FROM users WHERE user_id=?` (at most one row: primary key). -/
def findUser (db : DB) (uid : Int) : Option UserRow :=
  db.users.find? (fun u => u.user_id == uid)

/-- `ensure_user`: `INSERT OR IGNORE INTO users (user_id, name)`; the `banned`
column takes its declared default `0`. -/
def ensure_user (db : DB) (uid : Int) (name : String) : DB :=
  match findUser db uid with
  | some _ => db
  | none => { db with users := db.users ++ [⟨uid, name, 0⟩] }

/-- `is_banned`: `SELECT banned FROM users WHERE user_id=?`, then
`row and row[0] == 1`.  For a missing row Python returns the falsy `None`;
the observable truth value is modelled as the Bool `false`. -/
def is_banned (db : DB) (uid : Int) : Bool :=
  match findUser db uid with
  | some u => u.banned == 1
  | none => false

/-- `set_ban`: `UPDATE users SET banned=? WHERE user_id=?` (updates every
matching row; zero rows affected if the id is absent). -/
def set_ban (db : DB) (uid : Int) (value : Int) : DB :=
  { db with
    users := db.users.map (fun u =>
      if u.user_id == uid then { u with banned := value } else u) }

/-- `save_message`: `INSERT INTO messages (user_id, role, content)`; the id is
the next autoincrement value. -/
def save_message (db : DB) (uid : Int) (role content : String) : DB :=
  { db with
    messages := db.messages ++ [⟨db.nextId, uid, role, content⟩],
    nextId := db.nextId + 1 }

/-- Reverse-chronological order on message rows (`ORDER BY id DESC`). -/
def msgDesc (a b : MsgRow) : Prop := b.id ≤ a.id

instance : DecidableRel msgDesc := fun a b => Nat.decLe b.id a.id

instance : IsTotal MsgRow msgDesc := ⟨fun a b => Nat.le_total b.id a.id⟩

instance : IsTrans MsgRow msgDesc := ⟨fun _ _ _ h1 h2 => Nat.le_trans h2 h1⟩

/-- The rows produced by
`SELECT role, content FROM messages WHERE user_id=? ORDER BY id DESC LIMIT ?`
before projection: filter, sort by id descending, truncate. -/
def query_rows (db : DB) (uid : Int) (limit : Nat) : List MsgRow :=
  (List.insertionSort msgDesc (db.messages.filter (fun m => m.user_id == uid))).take limit

/-- The `(role, content)` pairs returned by `cur.fetchall()` for the
reverse-chronological query above. -/
def query_desc (db : DB) (uid : Int) (limit : Nat) : List (String × String) :=
  (query_rows db uid limit).map (fun m => (m.role, m.content))

/-- `get_history`: the fetched reverse-chronological rows, reversed by
`[::-1]` to oldest-first. -/
def get_history (db : DB) (uid : Int) (limit : Nat := 8) : List (String × String) :=
  (query_desc db uid limit).reverse

/-- `total_users`: `SELECT COUNT(*) FROM users`. -/
def total_users (db : DB) : Nat := db.users.length

/-- Python `str.strip()` with no argument: remove leading and trailing
whitespace. -/
def pyStrip (s : String) : String :=
  String.mk (((s.toList.dropWhile Char.isWhitespace).reverse.dropWhile
    Char.isWhitespace).reverse)

/-- The fixed system instruction (the Python triple-quoted `SYSTEM_PROMPT`,
including its leading and trailing newlines). -/
def SYSTEM_PROMPT : String :=
  "\nYou are Ashvi — a smart, friendly AI assistant from Patna.\nSpeak in Hinglish.\nBe honest and helpful.\nAvoid unsafe or illegal content.\nCorrect users politely.\nRemember conversation context.\n"

/-- The fixed apology substituted by the dispatcher on assembler failure. -/
def APOLOGY : String := "⚠️ Thoda issue aa gaya, phir try karo."

/-- The fixed `/start` greeting (three concatenated f-string fragments). -/
def GREETING : String :=
  "👋 Namaste!\nMain Ashvi hoon — tumhari AI dost 🤖\nBas message bhejo, baat shuru!"

/-- The static admin allow-list `ADMIN_IDS = {7476976785}`. -/
def ADMIN_IDS : List Int := [7476976785]

/-- The history list assembled by `ai_response` and passed to
`model.start_chat`: the system instruction (sent with role `"user"`) followed
by `get_history(user_id)` with the default limit of 8. -/
def build_history (db : DB) (uid : Int) : List (String × String) :=
  ("user", SYSTEM_PROMPT) :: get_history db uid 8

/-- `ai_response(user_id, text)`: assembles the history, issues exactly one
remote call (the oracle `remote`, which also receives `text` via
`chat.send_message(text, ...)`), and strips the response text.  Returns the
assembled history alongside the outcome so the dispatcher theorems can speak
about what the assembler was invoked with.  Any exception from the remote
call propagates (`Except.error`). -/
def ai_response (db : DB) (uid : Int) (_text : String)
    (remote : Except Unit String) :
    List (String × String) × Except Unit String :=
  (build_history db uid, remote.map pyStrip)

/-- Python truthiness of `user.first_name or "User"`: `None` and the empty
string both fall back to `"User"`. -/
def pyOr (first_name : Option String) : String :=
  match first_name with
  | none => "User"
  | some s => if s = "" then "User" else s

/-- The `try/except` around `ai_response` in `chat`: the reply is the
assembler's (stripped) text, or the fixed apology if any exception was
raised. -/
def dispatchReply (remote : Except Unit String) : String :=
  match remote.map pyStrip with
  | Except.ok r => r
  | Except.error _ => APOLOGY

/-- The observable outcome of one `chat` handler invocation: the resulting
database, the text sent back (`none` if the message was silently dropped) and
the history the assembler was invoked with (`none` if it was not invoked). -/
structure ChatResult where
  db : DB
  reply : Option String
  assemblerHistory : Option (List (String × String))
deriving Repr, DecidableEq

/-- The `chat` message handler: upsert the sender, drop if banned, persist the
inbound text as a `"user"` row, invoke the assembler (substituting the fixed
apology for any raised error), persist the reply as a `"model"` row and send
it back.  Note the inbound row is saved before `ai_response` runs. -/
def chat_handler (db : DB) (uid : Int) (first_name : Option String)
    (text : String) (remote : Except Unit String) : ChatResult :=
  let db1 := ensure_user db uid (pyOr first_name)
  if is_banned db1 uid then
    ⟨db1, none, none⟩
  else
    let db2 := save_message db1 uid "user" text
    let res := ai_response db2 uid text remote
    let reply := match res.2 with
      | Except.ok r => r
      | Except.error _ => APOLOGY
    let db3 := save_message db2 uid "model" reply
    ⟨db3, some reply, some res.1⟩

/-- The `/start` handler: upsert the sender, reply with the fixed greeting.
It performs no ban check. -/
def start_handler (db : DB) (uid : Int) (first_name : Option String) :
    DB × String :=
  (ensure_user db uid (pyOr first_name), GREETING)

/-- Digit run of a decimal literal: all characters must be digits and the run
must be nonempty, accumulating the value. -/
def parseDigitsAux : List Char → Nat → Option Nat
  | [], acc => some acc
  | c :: cs, acc =>
    if c.isDigit then parseDigitsAux cs (acc * 10 + (c.toNat - 48)) else none

/-- Parse a nonempty all-digit character list. -/
def parseDigits : List Char → Option Nat
  | [] => none
  | c :: cs => parseDigitsAux (c :: cs) 0

/-- Python `int(s)` on a decimal string literal: surrounding whitespace is
ignored, an optional single sign precedes a nonempty digit run; anything else
raises `ValueError` (modelled as `none`).  (Underscore digit separators are
not modelled; no argument of the claims uses them.) -/
def pyInt (s : String) : Option Int :=
  match (pyStrip s).toList with
  | '-' :: rest => (parseDigits rest).map (fun n => -(n : Int))
  | '+' :: rest => (parseDigits rest).map (fun n => (n : Int))
  | cs => (parseDigits cs).map (fun n => (n : Int))

/-- `int(context.args[0])`: `none` models both the `IndexError` of a missing
argument and the `ValueError` of a non-integer one (the handlers catch both
with a bare `except`). -/
def parse_int_arg (args : List String) : Option Int :=
  match args with
  | [] => none
  | a :: _ => pyInt a

/-- The `/stats` handler with its `admin_only` gate.  The second component
records whether `total_users` was invoked (the wrapper returns before calling
the wrapped handler for non-admins). -/
def stats_handler (uid : Int) (db : DB) : String × Bool :=
  if uid ∈ ADMIN_IDS then
    ("📊 Ashvi Stats\n\n👥 Total users: " ++ toString (total_users db), true)
  else
    ("❌ Admin only", false)

/-- The `/ban` handler with its `admin_only` gate: parse the single integer
argument, set the ban flag to 1; on parse failure reply with the usage
string.  Returns the resulting database and the reply text. -/
def ban_handler (uid : Int) (args : List String) (db : DB) : DB × String :=
  if uid ∈ ADMIN_IDS then
    match parse_int_arg args with
    | some target => (set_ban db target 1, "🚫 User " ++ toString target ++ " banned")
    | none => (db, "Usage: /ban user_id")
  else
    (db, "❌ Admin only")

/-- The `/unban` handler with its `admin_only` gate, symmetric to `/ban` with
the flag set to 0 and its own usage string. -/
def unban_handler (uid : Int) (args : List String) (db : DB) : DB × String :=
  if uid ∈ ADMIN_IDS then
    match parse_int_arg args with
    | some target => (set_ban db target 0, "✅ User " ++ toString target ++ " unbanned")
    | none => (db, "Usage: /unban user_id")
  else
    (db, "❌ Admin only")

/-- The persistence-layer operations, for stating properties of databases
reachable through the layer (e.g. "a user that was never banned"). -/
inductive Op where
  | ensure (uid : Int) (name : String)
  | setBan (uid : Int) (value : Int)
  | save (uid : Int) (role content : String)
deriving Repr, DecidableEq

/-- Apply one persistence-layer operation. -/
def applyOp (db : DB) : Op → DB
  | Op.ensure uid name => ensure_user db uid name
  | Op.setBan uid value => set_ban db uid value
  | Op.save uid role content => save_message db uid role content

/-- Run a list of persistence-layer operations from a starting state. -/
def runOps (db : DB) : List Op → DB
  | [] => db
  | op :: ops => runOps (applyOp db op) ops

/-! ### Helper lemmas about the persistence layer -/

theorem findUser_ensure_of_none {db : DB} {uid : Int} {n : String}
    (h : findUser db uid = none) :
    findUser (ensure_user db uid n) uid = some ⟨uid, n, 0⟩ := by
  unfold ensure_user
  rw [h]
  unfold findUser at h ⊢
  simp [List.find?_append, h]

theorem ensure_user_of_some {db : DB} {uid : Int} {u : UserRow} {n : String}
    (h : findUser db uid = some u) : ensure_user db uid n = db := by
  unfold ensure_user
  rw [h]

theorem ensure_user_messages (db : DB) (uid : Int) (n : String) :
    (ensure_user db uid n).messages = db.messages := by
  rcases h : findUser db uid with _ | u <;> simp [ensure_user, h]

theorem ensure_user_nextId (db : DB) (uid : Int) (n : String) :
    (ensure_user db uid n).nextId = db.nextId := by
  rcases h : findUser db uid with _ | u <;> simp [ensure_user, h]

theorem save_message_users (db : DB) (uid : Int) (role content : String) :
    (save_message db uid role content).users = db.users := rfl

theorem is_banned_ensure (db : DB) (uid : Int) (n : String) :
    is_banned (ensure_user db uid n) uid = is_banned db uid := by
  rcases h : findUser db uid with _ | u
  · simp [is_banned, findUser_ensure_of_none h, h]
  · simp [is_banned, ensure_user_of_some h, h]

theorem findUser_set_ban (db : DB) (uid uid' v : Int) :
    findUser (set_ban db uid v) uid' =
      Option.map (fun u => if u.user_id == uid then { u with banned := v } else u)
        (findUser db uid') := by
  have hp : ((fun u : UserRow => u.user_id == uid') ∘ fun u =>
      if u.user_id == uid then { u with banned := v } else u) =
      (fun u : UserRow => u.user_id == uid') := by
    funext u
    by_cases hc : u.user_id == uid <;> simp [Function.comp, hc]
  show (db.users.map _).find? _ = _
  rw [List.find?_map, hp]
  rfl

theorem set_ban_absent (db : DB) (uid v : Int) (h : findUser db uid = none) :
    set_ban db uid v = db := by
  have h' := List.find?_eq_none.mp h
  have hmap : db.users.map
      (fun u => if u.user_id == uid then { u with banned := v } else u) = db.users :=
    calc db.users.map (fun u => if u.user_id == uid then { u with banned := v } else u)
        = db.users.map id := List.map_congr_left (fun u hu => by simp [h' u hu])
      _ = db.users := List.map_id _
  unfold set_ban
  rw [hmap]

theorem is_banned_false_of_rows {db : DB} {uid : Int}
    (h : ∀ u ∈ db.users, u.user_id = uid → u.banned ≠ 1) :
    is_banned db uid = false := by
  unfold is_banned
  rcases hf : findUser db uid with _ | u
  · rfl
  · have hm := List.mem_of_find?_eq_some hf
    have hp : u.user_id = uid := by
      have := List.find?_some hf
      simpa using this
    simp [h u hm hp]

theorem runOps_not_banned (uid : Int) :
    ∀ (ops : List Op) (db : DB),
      (∀ u ∈ db.users, u.user_id = uid → u.banned ≠ 1) →
      (∀ v, Op.setBan uid v ∈ ops → v ≠ 1) →
      ∀ u ∈ (runOps db ops).users, u.user_id = uid → u.banned ≠ 1 := by
  intro ops
  induction ops with
  | nil => exact fun db hdb _ => hdb
  | cons op ops ih =>
    intro db hdb hops
    show ∀ u ∈ (runOps (applyOp db op) ops).users, u.user_id = uid → u.banned ≠ 1
    refine ih (applyOp db op) ?_ (fun v hv => hops v (List.mem_cons_of_mem _ hv))
    cases op with
    | ensure uid' name =>
      show ∀ u ∈ (ensure_user db uid' name).users, u.user_id = uid → u.banned ≠ 1
      rcases hf : findUser db uid' with _ | w
      · intro u hu huid
        rw [ensure_user, hf] at hu
        rcases List.mem_append.mp hu with hmem | hmem
        · exact hdb u hmem huid
        · simp at hmem
          subst hmem
          simp
      · rw [ensure_user_of_some hf]
        exact hdb
    | setBan uid' v =>
      intro u hu huid
      rcases List.mem_map.mp hu with ⟨w, hw, hfw⟩
      by_cases hc : (w.user_id == uid') = true
      · rw [if_pos hc] at hfw
        cases hfw
        have hw' : w.user_id = uid := huid
        have he : uid' = uid := by
          have : w.user_id = uid' := by simpa using hc
          omega
        subst he
        exact fun hv => hops v (List.mem_cons_self _ _) hv
      · rw [if_neg hc] at hfw
        cases hfw
        exact hdb _ hw huid
    | save uid' role content =>
      exact fun u hu => hdb u hu

theorem filter_messages_nil {db : DB} {uid : Int}
    (h : ∀ m ∈ db.messages, m.user_id ≠ uid) :
    db.messages.filter (fun m => m.user_id == uid) = [] :=
  List.filter_eq_nil_iff.mpr (fun m hm => by simp [h m hm])

theorem dispatchReply_ok (r : String) :
    dispatchReply (Except.ok r) = pyStrip r := rfl

theorem dispatchReply_error :
    dispatchReply (Except.error ()) = APOLOGY := rfl

theorem chat_handler_not_banned (db : DB) (uid : Int) (fn : Option String)
    (text : String) (remote : Except Unit String)
    (h : is_banned (ensure_user db uid (pyOr fn)) uid = false) :
    chat_handler db uid fn text remote =
      ⟨save_message (save_message (ensure_user db uid (pyOr fn)) uid "user" text)
          uid "model" (dispatchReply remote),
        some (dispatchReply remote),
        some (build_history
          (save_message (ensure_user db uid (pyOr fn)) uid "user" text) uid)⟩ := by
  unfold chat_handler
  simp only [h, ai_response, if_false, Bool.false_eq_true]
  rfl

theorem get_history_save_of_filter_nil (db : DB) (uid : Int)
    (role content : String)
    (h : db.messages.filter (fun m => m.user_id == uid) = []) :
    get_history (save_message db uid role content) uid 8 = [(role, content)] := by
  have hfil : (save_message db uid role content).messages.filter
      (fun m => m.user_id == uid) = [⟨db.nextId, uid, role, content⟩] := by
    show (db.messages ++ [_]).filter _ = _
    rw [List.filter_append, h]
    simp
  unfold get_history query_desc query_rows
  rw [hfil]
  rfl

/-! ### Claim theorems -/

/-- C4: for every user id and limit, `get_history(id, limit)` returns at most
`limit` (role, content) pairs; it equals the reverse of the underlying
reverse-chronological (id-descending) query; the underlying rows of the
result are ordered oldest-first (ascending id); and for a user id with no
messages it returns the empty sequence. -/
theorem get_history_spec (db : DB) (uid : Int) (limit : Nat) :
    (get_history db uid limit).length ≤ limit ∧
    get_history db uid limit = (query_desc db uid limit).reverse ∧
    List.Sorted (fun a b : MsgRow => a.id ≤ b.id) (query_rows db uid limit).reverse ∧
    ((∀ m ∈ db.messages, m.user_id ≠ uid) → get_history db uid limit = []) := by
  refine ⟨?_, rfl, ?_, ?_⟩
  · simp only [get_history, query_desc, query_rows, List.length_reverse,
      List.length_map, List.length_take]
    omega
  · have hs := List.sorted_insertionSort msgDesc
      (db.messages.filter (fun m => m.user_id == uid))
    have ht : List.Pairwise (fun a b : MsgRow => b.id ≤ a.id)
        (query_rows db uid limit) :=
      List.Pairwise.sublist (List.take_sublist _ _) hs
    exact List.pairwise_reverse.mpr ht
  · intro h
    have hfil : db.messages.filter (fun m => m.user_id == uid) = [] :=
      List.filter_eq_nil_iff.mpr (fun m hm => by simp [h m hm])
    simp [get_history, query_desc, query_rows, hfil, List.insertionSort]

/-- Witness for C4 at a concrete input: the empty database and user 5. -/
theorem get_history_spec_witness :
    (get_history dbInit 5 8).length ≤ 8 ∧ get_history dbInit 5 8 = [] := by
  have h := get_history_spec dbInit 5 8
  exact ⟨h.1, h.2.2.2 (by intro m hm; simp [dbInit] at hm)⟩

/-- C5: `is_banned` returns a boolean (modelled as `Bool`; Python returns the
falsy `None` for a missing row); it returns `false` for any id with no User
row, and `false` for every user that was never banned (that is, in any
database reachable from the fresh one by persistence operations none of which
sets that user's ban flag to 1). -/
theorem is_banned_spec (db : DB) (uid : Int) (ops : List Op)
    (hnew : findUser db uid = none)
    (hnever : ∀ v, Op.setBan uid v ∈ ops → v ≠ 1) :
    is_banned db uid = false ∧ is_banned (runOps dbInit ops) uid = false := by
  constructor
  · unfold is_banned
    rw [hnew]
  · refine is_banned_false_of_rows ?_
    refine runOps_not_banned uid ops dbInit ?_ hnever
    intro u hu
    simp [dbInit] at hu

/-- Witness for C5: user 3 is created and explicitly unbanned but never
banned. -/
theorem is_banned_spec_witness :
    is_banned dbInit 3 = false ∧
    is_banned (runOps dbInit [Op.ensure 3 "a", Op.setBan 3 0]) 3 = false := by
  refine is_banned_spec dbInit 3 [Op.ensure 3 "a", Op.setBan 3 0] rfl ?_
  intro v hv
  simp [List.mem_cons] at hv
  omega

/-- C6: `ensure_user` is idempotent: a second call with a different name is a
no-op, and when the id was initially absent the stored row keeps the name
from the first call. -/
theorem ensure_user_idempotent (db : DB) (uid : Int) (n1 n2 : String) :
    ensure_user (ensure_user db uid n1) uid n2 = ensure_user db uid n1 ∧
    (findUser db uid = none →
      findUser (ensure_user (ensure_user db uid n1) uid n2) uid =
        some ⟨uid, n1, 0⟩) := by
  have hstep : ensure_user (ensure_user db uid n1) uid n2 = ensure_user db uid n1 := by
    rcases h : findUser db uid with _ | u
    · exact ensure_user_of_some (findUser_ensure_of_none h)
    · rw [ensure_user_of_some h]
      exact ensure_user_of_some h
  refine ⟨hstep, fun h => ?_⟩
  rw [hstep]
  exact findUser_ensure_of_none h

/-- Witness for C6: user 1 registered as "Alice", then re-registered as
"Bob"; the stored name stays "Alice". -/
theorem ensure_user_idempotent_witness :
    ensure_user (ensure_user dbInit 1 "Alice") 1 "Bob" = ensure_user dbInit 1 "Alice" ∧
    findUser (ensure_user (ensure_user dbInit 1 "Alice") 1 "Bob") 1 =
      some ⟨1, "Alice", 0⟩ := by
  have h := ensure_user_idempotent dbInit 1 "Alice" "Bob"
  exact ⟨h.1, h.2 rfl⟩

/-- C7: ban round-trip — for every database and every user id, after
`set_ban(id, 1)` then `set_ban(id, 0)`, `is_banned(id)` is false; and
`set_ban` on an absent id silently affects zero rows (the database is
unchanged, no error). -/
theorem set_ban_roundtrip (db : DB) (uid v : Int) :
    is_banned (set_ban (set_ban db uid 1) uid 0) uid = false ∧
    (findUser db uid = none → set_ban db uid v = db) := by
  constructor
  · unfold is_banned
    rw [findUser_set_ban, findUser_set_ban]
    rcases h : findUser db uid with _ | u
    · rfl
    · have h' : db.users.find? (fun w => w.user_id == uid) = some u := h
      have hp := List.find?_some h'
      have he : u.user_id = uid := by simpa using hp
      simp [he]
  · exact set_ban_absent db uid v

/-- Witness for C7: existing user 9 is banned then unbanned and ends up not
banned; and `set_ban` on the absent id 9 of the empty database is a no-op. -/
theorem set_ban_roundtrip_witness :
    is_banned (set_ban (set_ban ⟨[⟨9, "n", 0⟩], [], 0⟩ 9 1) 9 0) 9 = false ∧
    set_ban dbInit 9 5 = dbInit :=
  ⟨(set_ban_roundtrip ⟨[⟨9, "n", 0⟩], [], 0⟩ 9 5).1,
   (set_ban_roundtrip dbInit 9 5).2 rfl⟩

/-- C8: every administrative command invoked by an identifier not in the
allow-list replies with the fixed denial message and does not execute the
gated operation: `/stats` does not invoke `total_users` (flag `false`), and
`/ban`, `/unban` leave the database unchanged. -/
theorem admin_gate_denies (uid : Int) (db : DB) (args : List String)
    (h : uid ∉ ADMIN_IDS) :
    stats_handler uid db = ("❌ Admin only", false) ∧
    ban_handler uid args db = (db, "❌ Admin only") ∧
    unban_handler uid args db = (db, "❌ Admin only") := by
  refine ⟨?_, ?_, ?_⟩ <;> simp [stats_handler, ban_handler, unban_handler, h]

/-- Witness for C8: identifier 5 is not in the allow-list. -/
theorem admin_gate_denies_witness :
    stats_handler 5 dbInit = ("❌ Admin only", false) ∧
    ban_handler 5 ["1"] dbInit = (dbInit, "❌ Admin only") ∧
    unban_handler 5 ["1"] dbInit = (dbInit, "❌ Admin only") :=
  admin_gate_denies 5 dbInit ["1"] (by decide)

/-- C9: when an admin invokes `/ban` with a missing or non-integer argument
the reply is the literal usage string `"Usage: /ban user_id"`, no User row is
mutated and no exception escapes (the handler is a total function); `/unban`
behaves symmetrically with its own usage string. -/
theorem ban_usage_on_parse_failure (uid : Int) (args : List String) (db : DB)
    (hadm : uid ∈ ADMIN_IDS) (hparse : parse_int_arg args = none) :
    ban_handler uid args db = (db, "Usage: /ban user_id") ∧
    unban_handler uid args db = (db, "Usage: /unban user_id") := by
  constructor <;> simp [ban_handler, unban_handler, hadm, hparse]

/-- Witness for C9: the admin id with the non-integer argument "abc". -/
theorem ban_usage_on_parse_failure_witness :
    ban_handler 7476976785 ["abc"] dbInit = (dbInit, "Usage: /ban user_id") ∧
    unban_handler 7476976785 ["abc"] dbInit = (dbInit, "Usage: /unban user_id") :=
  ban_usage_on_parse_failure 7476976785 ["abc"] dbInit (by decide) (by decide)

/-- C10: the `/start` handler performs no ban check: even for a sender whose
ban flag is set it replies with the fixed greeting, and its only persistence
effect is the idempotent user upsert. -/
theorem start_ignores_ban (db : DB) (uid : Int) (first_name : Option String)
    (_hban : is_banned db uid = true) :
    (start_handler db uid first_name).2 = GREETING ∧
    (start_handler db uid first_name).1 = ensure_user db uid (pyOr first_name) :=
  ⟨rfl, rfl⟩

/-- Witness for C10: banned user 7 still receives the greeting from
`/start`. -/
theorem start_ignores_ban_witness :
    (start_handler ⟨[⟨7, "x", 1⟩], [], 0⟩ 7 (some "Bob")).2 = GREETING ∧
    (start_handler ⟨[⟨7, "x", 1⟩], [], 0⟩ 7 (some "Bob")).1 =
      ensure_user ⟨[⟨7, "x", 1⟩], [], 0⟩ 7 (pyOr (some "Bob")) :=
  start_ignores_ban ⟨[⟨7, "x", 1⟩], [], 0⟩ 7 (some "Bob") (by decide)

set_option maxRecDepth 8192 in
/-- C1 (counterexample): when user 42 with no prior rows sends "hello", the
assembler is NOT invoked with history equal to `[system prompt]` alone — the
inbound message is persisted before `ai_response` runs, so the history
already contains the just-saved `("user", "hello")` turn. -/
theorem chat_first_message_history_not_system_only :
    (chat_handler dbInit 42 none "hello" (Except.ok "hi")).assemblerHistory ≠
      some [("user", SYSTEM_PROMPT)] := by
  decide

/-- C1 (amended): when a user with no prior Message rows and no User row
sends their first text, the dispatcher creates the User row
`(uid, "User", banned=0)`, appends the `("user", text)` Message row, invokes
the assembler with history `[system prompt, ("user", text)]` (the system
instruction followed by the just-persisted inbound turn), and on assembler
success the stripped reply is persisted as the `("model", ·)` row and sent
back. -/
theorem chat_first_message_spec (db : DB) (uid : Int) (text raw : String)
    (hmsg : ∀ m ∈ db.messages, m.user_id ≠ uid)
    (husr : findUser db uid = none) :
    findUser (chat_handler db uid none text (Except.ok raw)).db uid =
      some ⟨uid, "User", 0⟩ ∧
    (chat_handler db uid none text (Except.ok raw)).assemblerHistory =
      some [("user", SYSTEM_PROMPT), ("user", text)] ∧
    (chat_handler db uid none text (Except.ok raw)).reply =
      some (pyStrip raw) ∧
    ((chat_handler db uid none text (Except.ok raw)).db.messages.filter
        (fun m => m.user_id == uid)).map (fun m => (m.role, m.content)) =
      [("user", text), ("model", pyStrip raw)] := by
  have hfe : findUser (ensure_user db uid (pyOr none)) uid =
      some ⟨uid, "User", 0⟩ := findUser_ensure_of_none husr
  have hb : is_banned (ensure_user db uid (pyOr none)) uid = false := by
    unfold is_banned
    rw [hfe]
    rfl
  have hfil : (ensure_user db uid (pyOr none)).messages.filter
      (fun m => m.user_id == uid) = [] := by
    rw [ensure_user_messages]
    exact filter_messages_nil hmsg
  rw [chat_handler_not_banned db uid none text (Except.ok raw) hb]
  refine ⟨hfe, ?_, by rw [dispatchReply_ok], ?_⟩
  · show some (build_history _ uid) = _
    unfold build_history
    rw [get_history_save_of_filter_nil _ _ _ _ hfil]
  · show ((((ensure_user db uid (pyOr none)).messages ++ [_]) ++ [_]).filter _).map _ = _
    rw [List.filter_append, List.filter_append, hfil]
    simp [dispatchReply_ok]

/-- Witness for C1 (amended): user 42 sends "hello" into the fresh database
and the remote model answers "hi". -/
theorem chat_first_message_spec_witness :
    findUser (chat_handler dbInit 42 none "hello" (Except.ok "hi")).db 42 =
      some ⟨42, "User", 0⟩ ∧
    (chat_handler dbInit 42 none "hello" (Except.ok "hi")).assemblerHistory =
      some [("user", SYSTEM_PROMPT), ("user", "hello")] ∧
    (chat_handler dbInit 42 none "hello" (Except.ok "hi")).reply =
      some (pyStrip "hi") ∧
    ((chat_handler dbInit 42 none "hello" (Except.ok "hi")).db.messages.filter
        (fun m => m.user_id == 42)).map (fun m => (m.role, m.content)) =
      [("user", "hello"), ("model", pyStrip "hi")] :=
  chat_first_message_spec dbInit 42 "hello" "hi"
    (by intro m hm; simp [dbInit] at hm) rfl

/-- C2: for every inbound text from a non-banned user, if the assembler
raises any error the reply sent is the fixed apology string, that same string
is persisted as the content of the last Message row with role "model", and
the handler returns normally (it is a total function — the error does not
propagate). -/
theorem chat_assembler_error_apology (db : DB) (uid : Int) (fn : Option String)
    (text : String) (hban : is_banned db uid = false) :
    (chat_handler db uid fn text (Except.error ())).reply = some APOLOGY ∧
    ((chat_handler db uid fn text (Except.error ())).db.messages.map
        (fun m => (m.user_id, m.role, m.content))).getLast? =
      some (uid, "model", APOLOGY) := by
  have hb : is_banned (ensure_user db uid (pyOr fn)) uid = false := by
    rw [is_banned_ensure]
    exact hban
  rw [chat_handler_not_banned db uid fn text (Except.error ()) hb]
  refine ⟨by rw [dispatchReply_error], ?_⟩
  show (((_ ++ [_]).map _)).getLast? = _
  simp [List.map_append, dispatchReply_error]

/-- Witness for C2: non-banned user 1 in the fresh database, remote call
fails. -/
theorem chat_assembler_error_apology_witness :
    (chat_handler dbInit 1 none "x" (Except.error ())).reply = some APOLOGY ∧
    ((chat_handler dbInit 1 none "x" (Except.error ())).db.messages.map
        (fun m => (m.user_id, m.role, m.content))).getLast? =
      some (1, "model", APOLOGY) :=
  chat_assembler_error_apology dbInit 1 none "x" rfl

/-- C3: for every inbound text whose sender's ban flag is set, the dispatcher
writes no Message row (the messages table is unchanged) and sends no reply;
the only persistence effect is the idempotent user upsert. -/
theorem chat_banned_drops (db : DB) (uid : Int) (fn : Option String)
    (text : String) (remote : Except Unit String)
    (hban : is_banned db uid = true) :
    (chat_handler db uid fn text remote).db.messages = db.messages ∧
    (chat_handler db uid fn text remote).reply = none ∧
    (chat_handler db uid fn text remote).db = ensure_user db uid (pyOr fn) := by
  have hb : is_banned (ensure_user db uid (pyOr fn)) uid = true := by
    rw [is_banned_ensure]
    exact hban
  have hc : chat_handler db uid fn text remote =
      ⟨ensure_user db uid (pyOr fn), none, none⟩ := by
    unfold chat_handler
    simp only [hb, if_true]
  rw [hc]
  exact ⟨ensure_user_messages db uid _, rfl, rfl⟩

/-- Witness for C3: banned user 7 sends a text; nothing is written and no
reply is sent. -/
theorem chat_banned_drops_witness :
    (chat_handler ⟨[⟨7, "x", 1⟩], [], 0⟩ 7 (some "Bob") "yo"
        (Except.ok "hi")).db.messages = ([] : List MsgRow) ∧
    (chat_handler ⟨[⟨7, "x", 1⟩], [], 0⟩ 7 (some "Bob") "yo"
        (Except.ok "hi")).reply = none ∧
    (chat_handler ⟨[⟨7, "x", 1⟩], [], 0⟩ 7 (some "Bob") "yo"
        (Except.ok "hi")).db =
      ensure_user ⟨[⟨7, "x", 1⟩], [], 0⟩ 7 (pyOr (some "Bob")) :=
  chat_banned_drops ⟨[⟨7, "x", 1⟩], [], 0⟩ 7 (some "Bob") "yo"
    (Except.ok "hi") rfl

end Ashvi
